import Mathlib

/-!
# Verification of the MentorBackend argument-analysis engine

Shallow embedding of the decision logic of `src/server/a2a-agent.js`
(class `A2AAgent`) and `src/server/mcp.js` (class `MCP`).

JavaScript numbers are modelled by `ℚ` (all arithmetic performed by the
embedded code is exact on small rationals), substring counting
(`text.split(indicator).length - 1`) by an explicit left-to-right
non-overlapping scan, and `text.toLowerCase()` by `String.map Char.toLower`
(which agrees with JS on all ASCII input; none of the indicator tables or
claims depend on non-ASCII upper-case letters).
-/

namespace Mentor

/-- Left-to-right non-overlapping count of the pattern `pat` in a
character list: the semantics of JS `s.split(pat).length - 1` for a
non-empty `pat`.  The `fuel` argument (instantiated with the length of the
scanned list, which bounds the number of scan steps) makes the recursion
structural so that the kernel can evaluate it. -/
def scanCount (pat : List Char) : Nat → List Char → Nat
  | 0, _ => 0
  | _ + 1, [] => 0
  | fuel + 1, c :: rest =>
      if List.isPrefixOf pat (c :: rest) then
        scanCount pat fuel (List.drop pat.length (c :: rest)) + 1
      else
        scanCount pat fuel rest

/-- Number of occurrences of `pat` in `s`, as computed by JS
`s.split(pat).length - 1` (0 for an empty pattern, which never occurs in
the indicator tables). -/
def countOccs (pat s : String) : Nat :=
  match pat.toList with
  | [] => 0
  | p :: ps => scanCount (p :: ps) s.toList.length s.toList

/-- Embeds `text.toLowerCase()` (ASCII case folding). -/
def jsLower (s : String) : String := ⟨s.toList.map Char.toLower⟩

/-- Embeds the ubiquitous reduce pattern
`indicators.reduce((sum, ind) => sum + (text.toLowerCase().split(ind).length - 1), 0)`. -/
def countIndicatorHits (indicators : List String) (text : String) : Nat :=
  (indicators.map (fun ind => countOccs ind (jsLower text))).sum

end Mentor

namespace A2A

open Mentor

/-- The coherence connector list of `assessCoherence` (a2a-agent.js:405-411). -/
def coherenceIndicators : List String :=
  ["por lo tanto", "en consecuencia", "además", "sin embargo", "por otro lado"]

/-- `assessCoherence` (a2a-agent.js:403-416): `min(count / 3, 1)` over the
coherence connector list. -/
def assessCoherence (text : String) : ℚ :=
  min ((countIndicatorHits coherenceIndicators text : ℚ) / 3) 1

/-- The structure marker list of `assessOrganization` (a2a-agent.js:420-426). -/
def organizationIndicators : List String :=
  ["primero", "segundo", "tercero", "finalmente", "en primer lugar"]

/-- `assessOrganization` (a2a-agent.js:418-431): `min(count / 2, 1)`. -/
def assessOrganization (text : String) : ℚ :=
  min ((countIndicatorHits organizationIndicators text : ℚ) / 2) 1

/-- The thesis marker list of `detectThesis` (a2a-agent.js:434-440). -/
def thesisIndicators : List String :=
  ["creo que", "mi opinión", "considero", "mi posición", "estoy convencido"]

/-- `detectThesis` (a2a-agent.js:433-444). -/
def detectThesis (text : String) : Bool :=
  thesisIndicators.any (fun ind => 0 < countOccs ind (jsLower text))

/-- `assessThesisClarity` (a2a-agent.js:446-449): `detectThesis ? 0.8 : 0.3`. -/
def assessThesisClarity (text : String) : ℚ :=
  if detectThesis text then 8/10 else 3/10

/-- `assessTopicRelevance` (a2a-agent.js:451-454): constant placeholder `0.7`. -/
def assessTopicRelevance (_text : String) : ℚ := 7/10

/-- The depth marker list of `assessDepth` (a2a-agent.js:458-464). -/
def depthIndicators : List String :=
  ["analizar", "examinar", "investigar", "profundizar", "detallar"]

/-- `assessDepth` (a2a-agent.js:456-469): `min(count / 2, 1)`. -/
def assessDepth (text : String) : ℚ :=
  min ((countIndicatorHits depthIndicators text : ℚ) / 2) 1

/-- The breadth marker list of `assessBreadth` (a2a-agent.js:473-479). -/
def breadthIndicators : List String :=
  ["además", "también", "por otro lado", "asimismo", "igualmente"]

/-- `assessBreadth` (a2a-agent.js:471-484): `min(count / 3, 1)`. -/
def assessBreadth (text : String) : ℚ :=
  min ((countIndicatorHits breadthIndicators text : ℚ) / 3) 1

/-- The logical-connection marker list of `detectLogicalConnections`
(a2a-agent.js:487-493). -/
def connectionIndicators : List String :=
  ["por lo tanto", "en consecuencia", "esto demuestra", "se puede concluir", "debido a"]

/-- `detectLogicalConnections` (a2a-agent.js:486-497): a raw, unclamped
occurrence count. -/
def detectLogicalConnections (text : String) : Nat :=
  countIndicatorHits connectionIndicators text

/-- `assessArgumentFlow` (a2a-agent.js:499-503): `min(connections / 3, 1)`. -/
def assessArgumentFlow (text : String) : ℚ :=
  min ((detectLogicalConnections text : ℚ) / 3) 1

/-- `assessConsistency` (a2a-agent.js:505-508): constant placeholder `0.7`. -/
def assessConsistency (_text : String) : ℚ := 7/10

/-- The absolutist-word list of `detectFallacies` (a2a-agent.js:512-518). -/
def fallacyIndicators : List String :=
  ["todos", "nunca", "siempre", "nadie", "todo el mundo"]

/-- `detectFallacies` (a2a-agent.js:510-522): raw occurrence count of
absolutist words. -/
def detectFallacies (text : String) : Nat :=
  countIndicatorHits fallacyIndicators text

/-- `assessReasoningQuality` (a2a-agent.js:524-528):
`max(0, min(1, (connections - fallacies) / 3))`. -/
def assessReasoningQuality (text : String) : ℚ :=
  max 0 (min 1 (((detectLogicalConnections text : ℚ) - (detectFallacies text : ℚ)) / 3))

/-- The evidence-type table of `extractEvidenceIndicators` (a2a-agent.js:531-536). -/
def evidenceTypesTable : List (String × List String) :=
  [("statistics", ["porcentaje", "estadística", "dato", "cifra"]),
   ("examples", ["ejemplo", "caso", "instancia", "muestra"]),
   ("quotes", ["cita", "dice", "menciona", "afirma"]),
   ("references", ["según", "fuente", "referencia", "estudio"])]

/-- Result record of `extractEvidenceIndicators` (the `details` object is
the association list itself). -/
structure EvidenceIndicators where
  count : Nat
  types : List String
  details : List (String × Nat)
deriving DecidableEq

/-- `extractEvidenceIndicators` (a2a-agent.js:530-556): per-type counts;
only types with a positive count are recorded, and `count` is the sum of
the recorded values. -/
def extractEvidenceIndicators (text : String) : EvidenceIndicators :=
  let perType := evidenceTypesTable.map (fun p => (p.1, countIndicatorHits p.2 text))
  let recorded := perType.filter (fun p => 0 < p.2)
  { count := (recorded.map (fun p => p.2)).sum
    types := recorded.map (fun p => p.1)
    details := recorded }

/-- `assessEvidenceQuality` (a2a-agent.js:558-561): `min(count / 5, 1)`. -/
def assessEvidenceQuality (text : String) : ℚ :=
  min (((extractEvidenceIndicators text).count : ℚ) / 5) 1

/-- The source marker list of the first `assessSourceDependency`
definition (a2a-agent.js:564-571). -/
def sourceIndicators : List String :=
  ["según", "fuente", "referencia", "cita", "dice que", "menciona"]

/-- The FIRST definition of `assessSourceDependency` (a2a-agent.js:563-576):
`min(count / 5, 1)` over the source-indicator list.  In the source this
definition is shadowed by a later duplicate definition of the same method
name (a2a-agent.js:661-663) whose own comment says it intends to
"Reuse existing method", i.e. this one. -/
def assessSourceDependencyFirst (text : String) : ℚ :=
  min ((countIndicatorHits sourceIndicators text : ℚ) / 5) 1

/-- The FINAL definition of `assessSourceDependency` (a2a-agent.js:661-663),
the one that is in effect on the constructed object since later members of
a JS class body shadow earlier ones of the same name.  Its body is exactly
`return this.assessSourceDependency(text)`, an unconditional call to
itself.  The `fuel` argument counts remaining call frames; `none` models
the call not having returned within `fuel` frames. -/
def assessSourceDependencyFinal : Nat → String → Option ℚ
  | 0, _ => none
  | fuel + 1, text => assessSourceDependencyFinal fuel text

/-- `assessEvidenceRelevance` (a2a-agent.js:578-581): constant placeholder `0.7`. -/
def assessEvidenceRelevance (_text : String) : ℚ := 7/10

/-- The questioning marker list of `detectQuestioning` (a2a-agent.js:584-591). -/
def questioningIndicators : List String :=
  ["¿", "por qué", "cómo", "qué", "cuándo", "dónde"]

/-- `detectQuestioning` (a2a-agent.js:583-595): raw occurrence count. -/
def detectQuestioning (text : String) : Nat :=
  countIndicatorHits questioningIndicators text

/-- The analysis marker list of `detectAnalysis` (a2a-agent.js:598-604). -/
def analysisIndicators : List String :=
  ["analizar", "examinar", "investigar", "estudiar", "evaluar"]

/-- `detectAnalysis` (a2a-agent.js:597-608): raw occurrence count. -/
def detectAnalysis (text : String) : Nat :=
  countIndicatorHits analysisIndicators text

/-- The evaluation marker list of `detectEvaluation` (a2a-agent.js:611-617). -/
def evaluationIndicators : List String :=
  ["evaluar", "juzgar", "valorar", "considerar", "ponderar"]

/-- `detectEvaluation` (a2a-agent.js:610-621): raw occurrence count. -/
def detectEvaluation (text : String) : Nat :=
  countIndicatorHits evaluationIndicators text

/-- The synthesis marker list of `detectSynthesis` (a2a-agent.js:624-630). -/
def synthesisIndicators : List String :=
  ["sintetizar", "combinar", "integrar", "unificar", "consolidar"]

/-- `detectSynthesis` (a2a-agent.js:623-634): raw occurrence count. -/
def detectSynthesis (text : String) : Nat :=
  countIndicatorHits synthesisIndicators text

/-- The metacognition marker list of `detectMetacognition` (a2a-agent.js:637-643). -/
def metacognitionIndicators : List String :=
  ["reflexionar", "pensar sobre", "considerar", "meditar", "contemplar"]

/-- `detectMetacognition` (a2a-agent.js:636-647): raw occurrence count. -/
def detectMetacognition (text : String) : Nat :=
  countIndicatorHits metacognitionIndicators text

/-- `calculateCriticalThinkingLevel` (a2a-agent.js:649-659): `min(total / 5, 1)`. -/
def calculateCriticalThinkingLevel (text : String) : ℚ :=
  let total := detectQuestioning text + detectAnalysis text + detectEvaluation text
    + detectSynthesis text + detectMetacognition text
  min ((total : ℚ) / 5) 1

/-- The personal-insight marker list of `detectPersonalInsights`
(a2a-agent.js:666-672). -/
def personalIndicators : List String :=
  ["mi experiencia", "creo que", "pienso que", "mi opinión", "considero"]

/-- `detectPersonalInsights` (a2a-agent.js:665-676): raw occurrence count. -/
def detectPersonalInsights (text : String) : Nat :=
  countIndicatorHits personalIndicators text

/-- The creative marker list of `detectCreativeElements` (a2a-agent.js:679-685). -/
def creativeIndicators : List String :=
  ["imaginemos", "supongamos", "crear", "diseñar", "innovar"]

/-- `detectCreativeElements` (a2a-agent.js:678-689): raw occurrence count. -/
def detectCreativeElements (text : String) : Nat :=
  countIndicatorHits creativeIndicators text

/-- `calculateOriginalityScore` (a2a-agent.js:691-700):
`max(0, min(1, (personalInsights + creativeElements) / 5 - sourceDependency))`.
The source-dependency term is the call `this.assessSourceDependency(text)`,
which dispatches to the self-recursive final definition (see
`assessSourceDependencyFinal` and claim C1) and therefore never returns:
under every call budget `fuel` this whole computation produces no value. -/
def calculateOriginalityScore (fuel : Nat) (text : String) : Option ℚ :=
  match assessSourceDependencyFinal fuel text with
  | some sourceDependency =>
      some (max 0 (min 1
        (((detectPersonalInsights text : ℚ) + (detectCreativeElements text : ℚ)) / 5
          - sourceDependency)))
  | none => none

/-- `detectIntroduction` (a2a-agent.js:366-376). -/
def detectIntroduction (text : String) : Bool :=
  ["introducción", "en primer lugar", "para comenzar", "inicialmente"].any
    (fun ind => 0 < countOccs ind (jsLower text))

/-- `detectBody` (a2a-agent.js:378-380): `text.length > 100`. -/
def detectBody (text : String) : Bool := 100 < text.toList.length

/-- `detectConclusion` (a2a-agent.js:382-392). -/
def detectConclusion (text : String) : Bool :=
  ["en conclusión", "finalmente", "para terminar", "en resumen"].any
    (fun ind => 0 < countOccs ind (jsLower text))

/-- Character-predicate splitter used to model `text.split(/[.!?]+/)`.
A maximal run of delimiters in the regex version produces one boundary
where the character-wise version produces a run of empty segments; after
the `trim`-nonempty filter applied by `analyzeStructure` both versions
yield the same sentence list. -/
def splitOnPred (p : Char → Bool) : List Char → List (List Char)
  | [] => [[]]
  | c :: rest =>
      match splitOnPred p rest with
      | [] => [[]]
      | cur :: done => if p c then [] :: cur :: done else (c :: cur) :: done

/-- Whitespace trim on a character list, modelling JS `String.trim`. -/
def trimChars (l : List Char) : List Char :=
  ((l.dropWhile Char.isWhitespace).reverse.dropWhile Char.isWhitespace).reverse

/-- The sentence list of `analyzeStructure` (a2a-agent.js:104):
`text.split(/[.!?]+/).filter((s) => s.trim().length > 0)`. -/
def sentencesOf (text : String) : List String :=
  ((splitOnPred (fun c => c == '.' || c == '!' || c == '?') text.toList).map
    (fun l => (⟨l⟩ : String))).filter (fun s => 0 < (trimChars s.toList).length)

/-- `calculateAverageSentenceLength` (a2a-agent.js:394-401). -/
def calculateAverageSentenceLength (sentences : List String) : ℚ :=
  if sentences.length = 0 then 0
  else ((sentences.map (fun s => ((trimChars s.toList).length : ℚ))).sum) / sentences.length

/-- The `structure` sub-record of an Analysis (a2a-agent.js:103-115). -/
structure StructureA where
  hasIntroduction : Bool
  hasBody : Bool
  hasConclusion : Bool
  sentenceCount : Nat
  averageSentenceLength : ℚ
  coherence : ℚ
  organization : ℚ
deriving DecidableEq

/-- The `content` sub-record of an Analysis (a2a-agent.js:118-126). -/
structure ContentA where
  hasThesis : Bool
  thesisClarity : ℚ
  topicRelevance : ℚ
  depth : ℚ
  breadth : ℚ
deriving DecidableEq

/-- The `reasoning` sub-record of an Analysis (a2a-agent.js:129-137). -/
structure ReasoningA where
  logicalConnections : Nat
  argumentFlow : ℚ
  consistency : ℚ
  fallacies : Nat
  reasoningQuality : ℚ
deriving DecidableEq

/-- The `evidence` sub-record of an Analysis (a2a-agent.js:140-150). -/
structure EvidenceA where
  evidenceCount : Nat
  evidenceTypes : List String
  evidenceQuality : ℚ
  sourceDependency : ℚ
  evidenceRelevance : ℚ
deriving DecidableEq

/-- The `criticalThinking` sub-record of an Analysis (a2a-agent.js:153-162). -/
structure CriticalA where
  questioning : Nat
  analysis : Nat
  evaluation : Nat
  synthesis : Nat
  metacognition : Nat
  overallLevel : ℚ
deriving DecidableEq

/-- The `originality` sub-record of an Analysis (a2a-agent.js:165-172). -/
structure OriginalityA where
  sourceDependency : ℚ
  personalInsights : Nat
  creativeElements : Nat
  originalityScore : ℚ
deriving DecidableEq

/-- The `overall` summary of an Analysis (a2a-agent.js:795-813). -/
structure OverallA where
  «structure» : ℚ
  content : ℚ
  reasoning : ℚ
  evidence : ℚ
  criticalThinking : ℚ
  originality : ℚ
  total : ℚ
deriving DecidableEq

/-- The full Analysis record built by `performArgumentAnalysis`
(a2a-agent.js:85-100). -/
structure Analysis where
  «structure» : StructureA
  content : ContentA
  reasoning : ReasoningA
  evidence : EvidenceA
  criticalThinking : CriticalA
  originality : OriginalityA
  overall : OverallA
deriving DecidableEq

/-- `analyzeStructure` (a2a-agent.js:103-115). -/
def analyzeStructure (text : String) : StructureA :=
  let sentences := sentencesOf text
  { hasIntroduction := detectIntroduction text
    hasBody := detectBody text
    hasConclusion := detectConclusion text
    sentenceCount := sentences.length
    averageSentenceLength := calculateAverageSentenceLength sentences
    coherence := assessCoherence text
    organization := assessOrganization text }

/-- `analyzeContent` (a2a-agent.js:118-126). -/
def analyzeContent (text : String) : ContentA :=
  { hasThesis := detectThesis text
    thesisClarity := assessThesisClarity text
    topicRelevance := assessTopicRelevance text
    depth := assessDepth text
    breadth := assessBreadth text }

/-- `analyzeReasoning` (a2a-agent.js:129-137). -/
def analyzeReasoning (text : String) : ReasoningA :=
  { logicalConnections := detectLogicalConnections text
    argumentFlow := assessArgumentFlow text
    consistency := assessConsistency text
    fallacies := detectFallacies text
    reasoningQuality := assessReasoningQuality text }

/-- `analyzeEvidence` (a2a-agent.js:140-150).  The `sourceDependency`
field is the call `this.assessSourceDependency(text)`, which dispatches to
the self-recursive final definition and never returns, so under every call
budget `fuel` no evidence record is produced. -/
def analyzeEvidence (fuel : Nat) (text : String) : Option EvidenceA :=
  match assessSourceDependencyFinal fuel text with
  | some sourceDependency =>
      let evidenceIndicators := extractEvidenceIndicators text
      some { evidenceCount := evidenceIndicators.count
             evidenceTypes := evidenceIndicators.types
             evidenceQuality := assessEvidenceQuality text
             sourceDependency := sourceDependency
             evidenceRelevance := assessEvidenceRelevance text }
  | none => none

/-- `analyzeCriticalThinking` (a2a-agent.js:153-162). -/
def analyzeCriticalThinking (text : String) : CriticalA :=
  { questioning := detectQuestioning text
    analysis := detectAnalysis text
    evaluation := detectEvaluation text
    synthesis := detectSynthesis text
    metacognition := detectMetacognition text
    overallLevel := calculateCriticalThinkingLevel text }

/-- `analyzeOriginality` (a2a-agent.js:165-172); both `sourceDependency`
and the `originalityScore` computation dispatch to the self-recursive
final `assessSourceDependency`, so no originality record is produced
under any call budget. -/
def analyzeOriginality (fuel : Nat) (text : String) : Option OriginalityA :=
  match assessSourceDependencyFinal fuel text, calculateOriginalityScore fuel text with
  | some sourceDependency, some originalityScore =>
      some { sourceDependency := sourceDependency
             personalInsights := detectPersonalInsights text
             creativeElements := detectCreativeElements text
             originalityScore := originalityScore }
  | _, _ => none

/-- `calculateOverallScores` (a2a-agent.js:795-813).  The `total` field is
written as the literal `0` with the source comment "Will be calculated
below" — and no later statement ever assigns it. -/
def calculateOverallScores (analysis : Analysis) : OverallA :=
  { «structure» :=
      (analysis.«structure».coherence + analysis.«structure».organization) / 2
    content :=
      (analysis.content.thesisClarity + analysis.content.depth
        + analysis.content.breadth) / 3
    reasoning := analysis.reasoning.reasoningQuality
    evidence :=
      (analysis.evidence.evidenceQuality + analysis.evidence.evidenceRelevance) / 2
    criticalThinking := analysis.criticalThinking.overallLevel
    originality := analysis.originality.originalityScore
    total := 0 }

/-- `performArgumentAnalysis` (a2a-agent.js:85-100): assembles the six
sub-records (with `overall` first the empty placeholder object, modelled
as the all-zero record, never read before being overwritten) and then
overwrites `overall` with `calculateOverallScores`.  Because the evidence
and originality steps dispatch to the self-recursive final
`assessSourceDependency`, the assembly never completes: for every call
budget `fuel` and every text the result is `none` — the source invocation
dies in a stack overflow inside `analyzeEvidence`. -/
def performArgumentAnalysis (fuel : Nat) (text : String) : Option Analysis :=
  match analyzeEvidence fuel text, analyzeOriginality fuel text with
  | some evidence, some originality =>
      let base : Analysis :=
        { «structure» := analyzeStructure text
          content := analyzeContent text
          reasoning := analyzeReasoning text
          evidence := evidence
          criticalThinking := analyzeCriticalThinking text
          originality := originality
          overall := ⟨0, 0, 0, 0, 0, 0, 0⟩ }
      some { base with overall := calculateOverallScores base }
  | _, _ => none

/-- A Weakness record (a2a-agent.js:703-752). -/
structure Weakness where
  type : String
  area : String
  score : ℚ
  priority : String
deriving DecidableEq

/-- A Strength record (a2a-agent.js:755-792). -/
structure Strength where
  area : String
  message : String
  score : ℚ
deriving DecidableEq

/-- `identifyWeaknesses` (a2a-agent.js:703-752): fixed threshold rules,
all evaluated, in source order. -/
def identifyWeaknesses (analysis : Analysis) : List Weakness :=
  (if analysis.content.thesisClarity < 6/10 then
    [{ type := "thesis_weak", area := "Tesis",
       score := analysis.content.thesisClarity, priority := "high" }] else []) ++
  (if analysis.evidence.evidenceCount < 2 then
    [{ type := "evidence_lacking", area := "Evidencia",
       score := (analysis.evidence.evidenceCount : ℚ) / 5, priority := "medium" }] else []) ++
  (if 7/10 < analysis.originality.sourceDependency then
    [{ type := "source_dependency", area := "Originalidad",
       score := 1 - analysis.originality.sourceDependency, priority := "high" }] else []) ++
  (if analysis.reasoning.reasoningQuality < 6/10 then
    [{ type := "reasoning_weak", area := "Razonamiento",
       score := analysis.reasoning.reasoningQuality, priority := "medium" }] else []) ++
  (if analysis.criticalThinking.overallLevel < 5/10 then
    [{ type := "critical_thinking_low", area := "Pensamiento Crítico",
       score := analysis.criticalThinking.overallLevel, priority := "high" }] else [])

/-- `identifyStrengths` (a2a-agent.js:755-792): fixed threshold rules, in
source order. -/
def identifyStrengths (analysis : Analysis) : List Strength :=
  (if 8/10 < analysis.content.thesisClarity then
    [{ area := "Tesis", message := "Tu tesis está bien definida y clara",
       score := analysis.content.thesisClarity }] else []) ++
  (if 3 ≤ analysis.evidence.evidenceCount then
    [{ area := "Evidencia",
       message := "Incluyes buena cantidad de evidencia para respaldar tu argumento",
       score := (analysis.evidence.evidenceCount : ℚ) / 5 }] else []) ++
  (if 6/10 < analysis.originality.originalityScore then
    [{ area := "Originalidad",
       message := "Tu análisis muestra pensamiento original y personal",
       score := analysis.originality.originalityScore }] else []) ++
  (if 8/10 < analysis.reasoning.reasoningQuality then
    [{ area := "Razonamiento",
       message := "Tu razonamiento es lógico y bien estructurado",
       score := analysis.reasoning.reasoningQuality }] else [])

/-- A feedback template entry (a2a-agent.js:12-48). -/
structure FeedbackTemplate where
  message : String
  suggestion : String
  priority : String
deriving DecidableEq

/-- `initializeFeedbackTemplates` (a2a-agent.js:12-48): the static
category-to-template table, as a lookup function over the literal keys of
the returned object. -/
def feedbackTemplates : String → Option FeedbackTemplate
  | "thesis_weak" => some
      { message := "Tu respuesta necesita una tesis más clara. ¿Cuál es tu posición principal sobre el tema?"
        suggestion := "Comienza con una declaración clara de tu posición"
        priority := "high" }
  | "evidence_lacking" => some
      { message := "Necesitas más evidencia para respaldar tu argumento. ¿Qué datos o ejemplos puedes usar?"
        suggestion := "Incluye al menos 2-3 ejemplos específicos o datos relevantes"
        priority := "medium" }
  | "source_dependency" => some
      { message := "Tu respuesta depende mucho de fuentes externas. ¿Cómo puedes desarrollar tu propio análisis?"
        suggestion := "Combina información de fuentes con tu propio razonamiento"
        priority := "high" }
  | "reasoning_weak" => some
      { message := "Hay inconsistencias en tu razonamiento. Revisa las conexiones entre tus ideas."
        suggestion := "Usa conectores lógicos para unir tus argumentos de manera coherente"
        priority := "medium" }
  | "critical_thinking_low" => some
      { message := "Necesitas desarrollar más pensamiento crítico. ¿Qué preguntas puedes hacer sobre el tema?"
        suggestion := "Considera diferentes perspectivas y cuestiona las suposiciones"
        priority := "high" }
  | _ => none

/-- A micro-challenge template entry (a2a-agent.js:227-255). -/
structure ChallengeTemplate where
  prompt : String
  skill : String
  hint : String
  criteria : String
deriving DecidableEq

/-- The `challengeTemplates` object local to `createMicroChallenge`
(a2a-agent.js:227-255), as a lookup function over its literal keys.  It
has entries for four weakness categories only; note the absence of a
`source_dependency` key in the source object. -/
def challengeTemplates : String → Option ChallengeTemplate
  | "thesis_weak" => some
      { prompt := "Escribe una oración que exprese claramente tu posición principal sobre el tema"
        skill := "thesis_formation"
        hint := "Comienza con ’Mi posición es que...’ o ’Creo que...’"
        criteria := "Debe ser una declaración clara y específica" }
  | "evidence_lacking" => some
      { prompt := "Identifica 3 datos o ejemplos específicos que respalden tu argumento"
        skill := "evidence_gathering"
        hint := "Busca estadísticas, ejemplos concretos o casos específicos"
        criteria := "Deben ser relevantes y específicos al tema" }
  | "reasoning_weak" => some
      { prompt := "Explica cómo una de tus ideas principales se conecta con otra"
        skill := "logical_connection"
        hint := "Usa palabras como ’por lo tanto’, ’en consecuencia’, ’esto demuestra’"
        criteria := "Debe mostrar una conexión lógica clara" }
  | "critical_thinking_low" => some
      { prompt := "Formula 2 preguntas críticas sobre el tema que no hayas considerado"
        skill := "critical_questioning"
        hint := "Pregunta sobre suposiciones, alternativas o implicaciones"
        criteria := "Deben ser preguntas que requieran análisis profundo" }
  | _ => none

/-- A generated micro-challenge (a2a-agent.js:258-271), without the
random/time-based `id` field, which is outside the deterministic model. -/
structure MicroChallenge where
  type : String
  prompt : String
  skill : String
  hint : String
  criteria : String
  priority : String
  estimatedTime : String
deriving DecidableEq

/-- `createMicroChallenge` (a2a-agent.js:226-274): template lookup by the
weakness's `type`; returns `null` (here `none`) when no template matches. -/
def createMicroChallenge (weakness : Weakness) : Option MicroChallenge :=
  match challengeTemplates weakness.type with
  | some template => some
      { type := weakness.type
        prompt := template.prompt
        skill := template.skill
        hint := template.hint
        criteria := template.criteria
        priority := weakness.priority
        estimatedTime := "5-10 minutos" }
  | none => none

/-- The result record of `calculateProgress` (a2a-agent.js:333-363).  The
`insufficient_data` early returns carry no `currentScore`/`previousScore`
fields, modelled by `none`. -/
structure Progress where
  trend : String
  improvement : ℚ
  currentScore : Option ℚ
  previousScore : Option ℚ
deriving DecidableEq

/-- `calculateAverageScore` (a2a-agent.js:816-824) over a history window,
each entry projected to its `analysis.overall.total` (the only field the
source reads from an entry). -/
def calculateAverageScore (totals : List ℚ) : ℚ :=
  if totals.length = 0 then 0 else totals.sum / totals.length

/-- `calculateProgress` (a2a-agent.js:333-363), over the session history's
list of `overall.total` values, oldest first.  A missing session (Map
`get` returning `undefined`) behaves as the empty list: both take the
`insufficient_data` branch.  `slice(-3)` and `slice(-6, -3)` are the
drop/take combinations below (`Nat` subtraction clamps at 0 exactly as
JS `slice` clamps negative bounds). -/
def calculateProgress (history : List ℚ) : Progress :=
  if history.length < 2 then
    { trend := "insufficient_data", improvement := 0,
      currentScore := none, previousScore := none }
  else
    let recent := history.drop (history.length - 3)
    let older := (history.take (history.length - 3)).drop (history.length - 6)
    if older.length = 0 then
      { trend := "insufficient_data", improvement := 0,
        currentScore := none, previousScore := none }
    else
      let recentAvg := calculateAverageScore recent
      let olderAvg := calculateAverageScore older
      let improvement := recentAvg - olderAvg
      let trend :=
        if 1/10 < improvement then "improving"
        else if improvement < -(1/10) then "declining"
        else "stable"
      { trend := trend, improvement := improvement,
        currentScore := some recentAvg, previousScore := some olderAvg }

/-- Membership in the unit interval, the range the spec asserts for
normalized sub-scores. -/
def inUnit (x : ℚ) : Prop := 0 ≤ x ∧ x ≤ 1

/-- An Analysis record whose originality block carries simultaneously a
source-dependency of `0.8` (above the weakness threshold `0.7`) and an
originality score of `0.8` (above the strength threshold `0.6`), with all
other dimensions in their neutral bands.  The originality fields are
mutually consistent with the counting formulas (8 personal insights, 0
creative elements, source count 4: `max(0, min(1, 8/5 - 4/5)) = 4/5`). -/
def originalityAnalysis : Analysis :=
  { «structure» := ⟨false, false, false, 0, 0, 0, 0⟩
    content := ⟨false, 7/10, 7/10, 0, 0⟩
    reasoning := ⟨0, 0, 7/10, 0, 7/10⟩
    evidence := ⟨2, [], 0, 0, 7/10⟩
    criticalThinking := ⟨0, 0, 0, 0, 0, 5/10⟩
    originality := ⟨4/5, 8, 0, 4/5⟩
    overall := ⟨0, 0, 0, 0, 0, 0, 0⟩ }

end A2A

namespace MCP

open Mentor

/-- Visual-modality keyword list (mcp.js:530-545). -/
def visualIndicators : List String :=
  ["veo", "visualizar", "imagen", "diagrama", "gráfico", "color", "forma",
   "dibujo", "esquema", "mapa", "foto", "ilustración", "ver", "mirar"]

/-- Auditory-modality keyword list (mcp.js:548-563). -/
def auditoryIndicators : List String :=
  ["escucho", "sonido", "música", "hablar", "discutir", "debate",
   "conversación", "audio", "podcast", "explicar", "contar", "narrar",
   "oír", "escuchar"]

/-- Reading/writing-modality keyword list (mcp.js:566-580). -/
def readingIndicators : List String :=
  ["leer", "escribir", "texto", "libro", "artículo", "ensayo", "notas",
   "resumen", "lista", "palabras", "vocabulario", "definir",
   "explicar por escrito"]

/-- Kinesthetic-modality keyword list (mcp.js:583-597). -/
def kinestheticIndicators : List String :=
  ["hacer", "experimentar", "práctica", "manos", "tocar", "construir",
   "crear", "movimiento", "actividad", "proyecto", "manipular", "jugar",
   "actuar"]

/-- `countIndicators` (mcp.js:633-637): summed substring occurrence counts
over an already-lowercased text. -/
def countIndicators (text : String) (indicators : List String) : Nat :=
  (indicators.map (fun ind => countOccs ind text)).sum

/-- The `scores[name]` lookup of the object literal at mcp.js:609-614. -/
def styleScore (sv sa sr sk : Nat) : String → Nat
  | "visual" => sv
  | "auditory" => sa
  | "reading" => sr
  | "kinesthetic" => sk
  | _ => 0

/-- The dominant-style selection of mcp.js:616-618:
`Object.keys(scores).reduce((a, b) => scores[a] > scores[b] ? a : b)`,
a fold over the key order visual, auditory, reading, kinesthetic starting
from the first key, in which the accumulator is KEPT only when its score
is strictly greater than the challenger's. -/
def dominantOf (sv sa sr sk : Nat) : String :=
  List.foldl
    (fun a b => if styleScore sv sa sr sk b < styleScore sv sa sr sk a then a else b)
    "visual" ["auditory", "reading", "kinesthetic"]

/-- `detectLearningStyle` (mcp.js:524-631; this later definition shadows
the placeholder of the same name at mcp.js:495): counts each modality's
keywords in the lowercased message, then returns the dominant style when
the maximum score (`Math.max` over the four counts) is at least 2, else
`null` (`none`). -/
def detectLearningStyle (message : String) : Option String :=
  let text := jsLower message
  let sv := countIndicators text visualIndicators
  let sa := countIndicators text auditoryIndicators
  let sr := countIndicators text readingIndicators
  let sk := countIndicators text kinestheticIndicators
  let maxScore := max (max (max sv sa) sr) sk
  if 2 ≤ maxScore then some (dominantOf sv sa sr sk) else none

/-- Message lifecycle states (mcp.js:49, 67, 86, 95). -/
inductive MsgStatus where
  | pending
  | processing
  | completed
  | failed
deriving DecidableEq

/-- A queued message object (mcp.js:42-50). -/
structure MsgObj where
  id : String
  «from» : String
  «to» : String
  sessionId : String
  content : String
  timestamp : Nat
deriving DecidableEq

/-- The payload handed to a role handler (mcp.js:73-81); the session
context is an opaque value read from the context map. -/
structure Payload where
  message : String
  context : Option String
  «from» : String
  sessionId : String
  timestamp : Nat
deriving DecidableEq

/-- The value returned by `processMessage` (mcp.js:89-93 and 98-102). -/
structure MsgResult (Resp : Type) where
  success : Bool
  messageId : String
  response : Option Resp
  error : Option String

/-- The observable outcome of `processMessage`: its returned value, the
final `status` written on the message object, and the role handlers that
were invoked along the way. -/
structure ProcessOutcome (Resp : Type) where
  result : MsgResult Resp
  status : MsgStatus
  invoked : List String

/-- `executeAgentAction` (mcp.js:107-129): re-checks registration (throw
"not found"), then dispatches on the agent id string to one of the four
role handlers; any other registered id throws "Unknown agent type".  Role
handlers are parameters; a handler that throws is modelled as returning
`Except.error`.  The second component records which handlers ran. -/
def executeAgentAction {Resp : Type} (agents : List String)
    (hStudent hTeacher hA2A hAnalysis : Payload → Except String Resp)
    (agentId : String) (payload : Payload) : Except String Resp × List String :=
  if agentId ∈ agents then
    match agentId with
    | "student-agent" => (hStudent payload, ["student-agent"])
    | "teacher-agent" => (hTeacher payload, ["teacher-agent"])
    | "a2a-agent" => (hA2A payload, ["a2a-agent"])
    | "analysis-agent" => (hAnalysis payload, ["analysis-agent"])
    | other => (Except.error ("Unknown agent type: " ++ other), [])
  else (Except.error ("Agent " ++ agentId ++ " not found"), [])

/-- The payload construction of mcp.js:73-81. -/
def mkPayload (contexts : String → Option String) (msg : MsgObj) : Payload :=
  { message := msg.content
    context := contexts msg.sessionId
    «from» := msg.«from»
    sessionId := msg.sessionId
    timestamp := msg.timestamp }

/-- `processMessage` (mcp.js:59-104): the whole body runs inside one
`try`/`catch`.  An unregistered target agent throws before any handler
runs; the `catch` marks the message `failed` and returns
`{success: false, messageId, error}`.  A handler error propagates to the
same `catch` with the same effect.  On success the message is marked
`completed` and `{success: true, messageId, response}` is returned. -/
def processMessage {Resp : Type} (agents : List String)
    (contexts : String → Option String)
    (hStudent hTeacher hA2A hAnalysis : Payload → Except String Resp)
    (msg : MsgObj) : ProcessOutcome Resp :=
  if msg.«to» ∈ agents then
    let payload := mkPayload contexts msg
    match executeAgentAction agents hStudent hTeacher hA2A hAnalysis msg.«to» payload with
    | (Except.ok response, invoked) =>
        { result := { success := true, messageId := msg.id,
                      response := some response, error := none }
          status := MsgStatus.completed
          invoked := invoked }
    | (Except.error e, invoked) =>
        { result := { success := false, messageId := msg.id,
                      response := none, error := some e }
          status := MsgStatus.failed
          invoked := invoked }
  else
    { result := { success := false, messageId := msg.id, response := none,
                  error := some ("Agent " ++ msg.«to» ++ " not found") }
      status := MsgStatus.failed
      invoked := [] }

end MCP

namespace Mentor

/-- No pattern occurs in the empty string. -/
theorem countOccs_empty (pat : String) : countOccs pat "" = 0 := by
  rcases h : pat.data with _ | ⟨p, ps⟩ <;>
    (simp only [countOccs, String.toList, h]; try rfl)

/-- No pattern occurs in the lowercased empty string. -/
theorem countOccs_lower_empty (pat : String) : countOccs pat (jsLower "") = 0 :=
  countOccs_empty pat

/-- Every indicator list scores `0` on the empty string. -/
theorem countIndicatorHits_empty (l : List String) : countIndicatorHits l "" = 0 := by
  simp [countIndicatorHits, countOccs_lower_empty]

end Mentor

namespace A2A

open Mentor

/-- A clamped normalized count `min(count / k, 1)` lies in `[0, 1]`. -/
theorem inUnit_min_div (n : ℕ) (k : ℚ) (hk : 0 < k) : inUnit (min ((n : ℚ) / k) 1) :=
  ⟨le_min (div_nonneg (Nat.cast_nonneg n) hk.le) zero_le_one, min_le_right _ _⟩

/-- A doubly clamped value `max(0, min(1, x))` lies in `[0, 1]`. -/
theorem inUnit_clamp (x : ℚ) : inUnit (max 0 (min 1 x)) :=
  ⟨le_max_left _ _, max_le zero_le_one (min_le_left _ _)⟩

/-- The mean of two unit-interval values lies in `[0, 1]`. -/
theorem inUnit_mean2 {a b : ℚ} (ha : inUnit a) (hb : inUnit b) : inUnit ((a + b) / 2) := by
  obtain ⟨ha0, ha1⟩ := ha
  obtain ⟨hb0, hb1⟩ := hb
  exact ⟨by linarith, by linarith⟩

/-- The mean of three unit-interval values lies in `[0, 1]`. -/
theorem inUnit_mean3 {a b c : ℚ} (ha : inUnit a) (hb : inUnit b) (hc : inUnit c) :
    inUnit ((a + b + c) / 3) := by
  obtain ⟨ha0, ha1⟩ := ha
  obtain ⟨hb0, hb1⟩ := hb
  obtain ⟨hc0, hc1⟩ := hc
  exact ⟨by linarith, by linarith⟩

theorem assessCoherence_unit (t : String) : inUnit (assessCoherence t) :=
  inUnit_min_div _ _ (by norm_num)

theorem assessOrganization_unit (t : String) : inUnit (assessOrganization t) :=
  inUnit_min_div _ _ (by norm_num)

theorem assessThesisClarity_unit (t : String) : inUnit (assessThesisClarity t) := by
  unfold assessThesisClarity inUnit
  split <;> norm_num

theorem assessTopicRelevance_unit (t : String) : inUnit (assessTopicRelevance t) := by
  unfold assessTopicRelevance inUnit
  norm_num

theorem assessDepth_unit (t : String) : inUnit (assessDepth t) :=
  inUnit_min_div _ _ (by norm_num)

theorem assessBreadth_unit (t : String) : inUnit (assessBreadth t) :=
  inUnit_min_div _ _ (by norm_num)

theorem assessArgumentFlow_unit (t : String) : inUnit (assessArgumentFlow t) :=
  inUnit_min_div _ _ (by norm_num)

theorem assessConsistency_unit (t : String) : inUnit (assessConsistency t) := by
  unfold assessConsistency inUnit
  norm_num

theorem assessReasoningQuality_unit (t : String) : inUnit (assessReasoningQuality t) :=
  inUnit_clamp _

theorem assessEvidenceQuality_unit (t : String) : inUnit (assessEvidenceQuality t) :=
  inUnit_min_div _ _ (by norm_num)

theorem assessSourceDependencyFirst_unit (t : String) : inUnit (assessSourceDependencyFirst t) :=
  inUnit_min_div _ _ (by norm_num)

theorem assessEvidenceRelevance_unit (t : String) : inUnit (assessEvidenceRelevance t) := by
  unfold assessEvidenceRelevance inUnit
  norm_num

theorem calculateCriticalThinkingLevel_unit (t : String) :
    inUnit (calculateCriticalThinkingLevel t) :=
  inUnit_min_div _ _ (by norm_num)

/-- The final `assessSourceDependency` yields no value under any call
budget (it only ever calls itself). -/
theorem sourceDependencyFinal_none (fuel : Nat) (text : String) :
    assessSourceDependencyFinal fuel text = none := by
  induction fuel with
  | zero => rfl
  | succ n ih => exact ih

/-- `calculateOriginalityScore` never returns: its source-dependency call
diverges. -/
theorem calculateOriginalityScore_none (fuel : Nat) (text : String) :
    calculateOriginalityScore fuel text = none := by
  unfold calculateOriginalityScore
  rw [sourceDependencyFinal_none]

/-- `analyzeEvidence` never returns: its source-dependency call diverges. -/
theorem analyzeEvidence_none (fuel : Nat) (text : String) :
    analyzeEvidence fuel text = none := by
  unfold analyzeEvidence
  rw [sourceDependencyFinal_none]

/-- `analyzeOriginality` never returns: its source-dependency calls
diverge. -/
theorem analyzeOriginality_none (fuel : Nat) (text : String) :
    analyzeOriginality fuel text = none := by
  unfold analyzeOriginality
  rw [sourceDependencyFinal_none]

/-- The scorer pipeline never produces an Analysis: every invocation of
`performArgumentAnalysis` dies in the diverging `assessSourceDependency`
call inside `analyzeEvidence`, for every call budget and every text. -/
theorem performArgumentAnalysis_none (fuel : Nat) (text : String) :
    performArgumentAnalysis fuel text = none := by
  unfold performArgumentAnalysis
  rw [analyzeEvidence_none]

/-- Summed indicator hits are monotone in the per-indicator occurrence
counts. -/
theorem countHits_mono {l : List String} {t1 t2 : String}
    (h : ∀ ind ∈ l, Mentor.countOccs ind (Mentor.jsLower t1)
        ≤ Mentor.countOccs ind (Mentor.jsLower t2)) :
    countIndicatorHits l t1 ≤ countIndicatorHits l t2 :=
  List.sum_le_sum h

/-- The clamp `min(count / k, 1)` is monotone in the count. -/
theorem min_div_mono {k : ℚ} (hk : 0 < k) {m n : ℕ} (h : m ≤ n) :
    min ((m : ℚ) / k) 1 ≤ min ((n : ℚ) / k) 1 := by
  refine min_le_min ?_ le_rfl
  have hmn : (m : ℚ) ≤ n := by exact_mod_cast h
  exact div_le_div_of_nonneg_right hmn hk.le

/-- `detectThesis` is monotone in the thesis-indicator occurrence counts. -/
theorem detectThesis_mono {t1 t2 : String}
    (h : ∀ ind ∈ thesisIndicators, Mentor.countOccs ind (Mentor.jsLower t1)
        ≤ Mentor.countOccs ind (Mentor.jsLower t2))
    (h1 : detectThesis t1 = true) : detectThesis t2 = true := by
  unfold detectThesis at h1 ⊢
  simp only [List.any_eq_true, decide_eq_true_eq] at h1 ⊢
  obtain ⟨ind, hmem, hpos⟩ := h1
  exact ⟨ind, hmem, lt_of_lt_of_le hpos (h ind hmem)⟩

/-- Filtering out the zero counts does not change the total. -/
theorem filter_pos_sum (l : List (String × Nat)) :
    ((l.filter (fun p => 0 < p.2)).map (fun p => p.2)).sum
      = (l.map (fun p => p.2)).sum := by
  induction l with
  | nil => rfl
  | cons x xs ih =>
      by_cases hx : 0 < x.2 <;> (simp [List.filter_cons, hx, ih]; try omega)

/-- The evidence count is the plain sum of all per-type indicator hits. -/
theorem evidenceCount_eq (t : String) :
    (extractEvidenceIndicators t).count
      = (evidenceTypesTable.map (fun p => countIndicatorHits p.2 t)).sum := by
  simp only [extractEvidenceIndicators]
  rw [filter_pos_sum]
  simp [List.map_map, Function.comp_def]

end A2A

section Claims

open Mentor

/-- C1: the final definition of `assessSourceDependency` — the one in
effect on the object, shadowing the earlier counting implementation —
makes one self-call per frame and therefore never returns for any input
text: under any call-frame budget `fuel` the call steps to itself with one
frame fewer, and never produces a value. -/
theorem assessSourceDependency_final_diverges :
    ∀ (fuel : ℕ) (text : String),
      A2A.assessSourceDependencyFinal (fuel + 1) text
          = A2A.assessSourceDependencyFinal fuel text
        ∧ A2A.assessSourceDependencyFinal fuel text = none := by
  intro fuel text
  refine ⟨rfl, ?_⟩
  induction fuel with
  | zero => rfl
  | succ n ih => exact ih

/-- C2 (code bug): `calculateOverallScores` initializes `total` to the
literal `0` (source comment: "Will be calculated below") and no code ever
computes it, so every produced Analysis has `overall.total = 0`; in
particular any session history of six real analyses yields trend
`"stable"` with improvement `0`.  The trend computation itself would
behave as the claim states on the claimed totals: on the history
`[0.2, 0.2, 0.2, 0.8, 0.8, 0.8]` `calculateProgress` returns
`"improving"` with improvement `0.6`. -/
theorem overall_total_never_computed :
    (∀ a : A2A.Analysis, (A2A.calculateOverallScores a).total = 0)
      ∧ A2A.calculateProgress [2/10, 2/10, 2/10, 8/10, 8/10, 8/10]
          = { trend := "improving", improvement := 6/10,
              currentScore := some (8/10), previousScore := some (2/10) }
      ∧ ∀ a₁ a₂ a₃ a₄ a₅ a₆ : A2A.Analysis,
          A2A.calculateProgress
              ([a₁, a₂, a₃, a₄, a₅, a₆].map
                (fun a => (A2A.calculateOverallScores a).total))
            = { trend := "stable", improvement := 0,
                currentScore := some 0, previousScore := some 0 } := by
  refine ⟨fun a => rfl, ?_, ?_⟩
  · norm_num [A2A.calculateProgress, A2A.calculateAverageScore, List.drop, List.take]
  · intro a₁ a₂ a₃ a₄ a₅ a₆
    show A2A.calculateProgress [0, 0, 0, 0, 0, 0] = _
    norm_num [A2A.calculateProgress, A2A.calculateAverageScore, List.drop, List.take]

/-- C3 counterexample: scoring the empty string does NOT yield an
all-zero Analysis without error.  The scoring pipeline never returns at
all (it dies in the self-recursive `assessSourceDependency`, here under
the concrete call budget 1000), and the thesis-clarity, topic-relevance,
consistency and evidence-relevance assessors — the source functions that
would populate those sub-scores — return `0.3`, `0.7`, `0.7` and `0.7` on
empty input, none of them `0`. -/
theorem empty_text_subscores_counterexample :
    A2A.performArgumentAnalysis 1000 "" = none
      ∧ A2A.assessThesisClarity "" = 3/10
      ∧ A2A.assessTopicRelevance "" = 7/10
      ∧ A2A.assessConsistency "" = 7/10
      ∧ A2A.assessEvidenceRelevance "" = 7/10
      ∧ ¬((3 : ℚ)/10 = 0) ∧ ¬((7 : ℚ)/10 = 0) := by
  have hthesis : A2A.detectThesis "" = false := by
    simp [A2A.detectThesis, A2A.thesisIndicators, countOccs_lower_empty]
  refine ⟨A2A.performArgumentAnalysis_none 1000 "", ?_, rfl, rfl, rfl,
    by norm_num, by norm_num⟩
  simp [A2A.assessThesisClarity, hthesis]

/-- C3 amended: scoring the empty string never yields an Analysis at
all — for every call budget `performArgumentAnalysis` diverges in the
self-recursive `assessSourceDependency` (the defect of C1), i.e. the
scoring call errors out rather than returning.  The terminating
sub-assessors, each of which tolerates empty input without throwing,
return `0` for every indicator-counting sub-score (coherence,
organization, depth, breadth, logical connections, argument flow,
fallacies, evidence count and quality, the shadowed counting source
dependency, critical-thinking level, personal insights, creative
elements), while the fixed heuristics return `thesisClarity = 0.3` and
`topicRelevance = consistency = evidenceRelevance = 0.7` rather than
`0`. -/
theorem empty_text_scores :
    (∀ fuel : ℕ, A2A.performArgumentAnalysis fuel "" = none)
      ∧ A2A.assessCoherence "" = 0
      ∧ A2A.assessOrganization "" = 0
      ∧ A2A.assessDepth "" = 0
      ∧ A2A.assessBreadth "" = 0
      ∧ A2A.detectLogicalConnections "" = 0
      ∧ A2A.assessArgumentFlow "" = 0
      ∧ A2A.detectFallacies "" = 0
      ∧ A2A.assessReasoningQuality "" = 0
      ∧ (A2A.extractEvidenceIndicators "").count = 0
      ∧ A2A.assessEvidenceQuality "" = 0
      ∧ A2A.assessSourceDependencyFirst "" = 0
      ∧ A2A.calculateCriticalThinkingLevel "" = 0
      ∧ A2A.detectPersonalInsights "" = 0
      ∧ A2A.detectCreativeElements "" = 0
      ∧ A2A.assessThesisClarity "" = 3/10
      ∧ A2A.assessTopicRelevance "" = 7/10
      ∧ A2A.assessConsistency "" = 7/10
      ∧ A2A.assessEvidenceRelevance "" = 7/10 := by
  have hthesis : A2A.detectThesis "" = false := by
    simp [A2A.detectThesis, A2A.thesisIndicators, countOccs_lower_empty]
  refine ⟨fun fuel => A2A.performArgumentAnalysis_none fuel "", ?_⟩
  norm_num [A2A.assessCoherence, A2A.assessOrganization,
    A2A.assessDepth, A2A.assessBreadth, A2A.detectLogicalConnections,
    A2A.assessArgumentFlow, A2A.detectFallacies, A2A.assessReasoningQuality,
    A2A.extractEvidenceIndicators, A2A.evidenceTypesTable, A2A.assessEvidenceQuality,
    A2A.assessSourceDependencyFirst, A2A.calculateCriticalThinkingLevel,
    A2A.detectQuestioning, A2A.detectAnalysis, A2A.detectEvaluation,
    A2A.detectSynthesis, A2A.detectMetacognition, A2A.detectPersonalInsights,
    A2A.detectCreativeElements, A2A.assessThesisClarity, A2A.assessTopicRelevance,
    A2A.assessConsistency, A2A.assessEvidenceRelevance, hthesis,
    countIndicatorHits_empty]

/-- C6 counterexample: the micro-challenge template table has no entry for
the `source_dependency` weakness category — `createMicroChallenge` on a
source-dependency weakness returns `null` — even though the feedback table
does cover that category. -/
theorem challenge_table_missing_source_dependency :
    A2A.createMicroChallenge
        { type := "source_dependency", area := "Originalidad",
          score := 2/10, priority := "high" } = none
      ∧ (A2A.feedbackTemplates "source_dependency").isSome = true := by
  decide

/-- C6 amended: the feedback table contains an entry for each of the five
defined weakness categories, but the micro-challenge table covers only
four of them (thesis_weak, evidence_lacking, reasoning_weak,
critical_thinking_low); it has no entry for source_dependency. -/
theorem template_tables_coverage :
    (A2A.feedbackTemplates "thesis_weak").isSome = true
      ∧ (A2A.feedbackTemplates "evidence_lacking").isSome = true
      ∧ (A2A.feedbackTemplates "source_dependency").isSome = true
      ∧ (A2A.feedbackTemplates "reasoning_weak").isSome = true
      ∧ (A2A.feedbackTemplates "critical_thinking_low").isSome = true
      ∧ (A2A.challengeTemplates "thesis_weak").isSome = true
      ∧ (A2A.challengeTemplates "evidence_lacking").isSome = true
      ∧ (A2A.challengeTemplates "reasoning_weak").isSome = true
      ∧ (A2A.challengeTemplates "critical_thinking_low").isSome = true
      ∧ A2A.challengeTemplates "source_dependency" = none := by
  decide

/-- C5 counterexample: the claim fails at the text
`"debido a debido a"` on both counts.  The scorer never produces an
Analysis for it at all (the pipeline dies in the self-recursive
`assessSourceDependency`, here under the concrete call budget 1000), and
the reasoning sub-record the pipeline computes for this text stores the
raw logical-connection count `2 > 1` — an unclamped value outside
`[0, 1]`. -/
theorem raw_count_subscore_exceeds_one :
    A2A.performArgumentAnalysis 1000 "debido a debido a" = none
      ∧ (A2A.analyzeReasoning "debido a debido a").logicalConnections = 2
      ∧ ¬(((A2A.analyzeReasoning "debido a debido a").logicalConnections : ℚ) ≤ 1) := by
  have h : (A2A.analyzeReasoning "debido a debido a").logicalConnections = 2 := by
    decide
  refine ⟨A2A.performArgumentAnalysis_none 1000 _, h, ?_⟩
  rw [h]
  norm_num

/-- C5 amended: the scorer never completes an Analysis
(`performArgumentAnalysis` diverges for every text and every call budget
in the self-recursive `assessSourceDependency`), so no produced Analysis
exists; each terminating clamped sub-assessor (coherence, organization,
thesis clarity, topic relevance, depth, breadth, argument flow,
consistency, reasoning quality, evidence quality, the shadowed counting
source dependency, evidence relevance, critical-thinking level) returns a
value in `[0, 1]` for every text; and `calculateOverallScores` keeps the
aggregate in `[0, 1]` whenever the sub-scores it reads are in `[0, 1]`
(its `total` is the constant `0`).  The raw indicator-count values the
pipeline computes (`logicalConnections`, `fallacies`, `evidenceCount`,
the critical-thinking counters), however, are unbounded and may
exceed 1. -/
theorem clamped_subscores_in_unit_interval (text : String) :
    (∀ fuel : ℕ, A2A.performArgumentAnalysis fuel text = none)
      ∧ A2A.inUnit (A2A.assessCoherence text)
      ∧ A2A.inUnit (A2A.assessOrganization text)
      ∧ A2A.inUnit (A2A.assessThesisClarity text)
      ∧ A2A.inUnit (A2A.assessTopicRelevance text)
      ∧ A2A.inUnit (A2A.assessDepth text)
      ∧ A2A.inUnit (A2A.assessBreadth text)
      ∧ A2A.inUnit (A2A.assessArgumentFlow text)
      ∧ A2A.inUnit (A2A.assessConsistency text)
      ∧ A2A.inUnit (A2A.assessReasoningQuality text)
      ∧ A2A.inUnit (A2A.assessEvidenceQuality text)
      ∧ A2A.inUnit (A2A.assessSourceDependencyFirst text)
      ∧ A2A.inUnit (A2A.assessEvidenceRelevance text)
      ∧ A2A.inUnit (A2A.calculateCriticalThinkingLevel text)
      ∧ (∀ a : A2A.Analysis,
          A2A.inUnit a.«structure».coherence → A2A.inUnit a.«structure».organization →
          A2A.inUnit a.content.thesisClarity → A2A.inUnit a.content.depth →
          A2A.inUnit a.content.breadth → A2A.inUnit a.reasoning.reasoningQuality →
          A2A.inUnit a.evidence.evidenceQuality → A2A.inUnit a.evidence.evidenceRelevance →
          A2A.inUnit a.criticalThinking.overallLevel →
          A2A.inUnit a.originality.originalityScore →
          A2A.inUnit (A2A.calculateOverallScores a).«structure»
            ∧ A2A.inUnit (A2A.calculateOverallScores a).content
            ∧ A2A.inUnit (A2A.calculateOverallScores a).reasoning
            ∧ A2A.inUnit (A2A.calculateOverallScores a).evidence
            ∧ A2A.inUnit (A2A.calculateOverallScores a).criticalThinking
            ∧ A2A.inUnit (A2A.calculateOverallScores a).originality
            ∧ A2A.inUnit (A2A.calculateOverallScores a).total) := by
  refine ⟨fun fuel => A2A.performArgumentAnalysis_none fuel text,
    A2A.assessCoherence_unit text, A2A.assessOrganization_unit text,
    A2A.assessThesisClarity_unit text, A2A.assessTopicRelevance_unit text,
    A2A.assessDepth_unit text, A2A.assessBreadth_unit text,
    A2A.assessArgumentFlow_unit text, A2A.assessConsistency_unit text,
    A2A.assessReasoningQuality_unit text, A2A.assessEvidenceQuality_unit text,
    A2A.assessSourceDependencyFirst_unit text, A2A.assessEvidenceRelevance_unit text,
    A2A.calculateCriticalThinkingLevel_unit text, ?_⟩
  intro a hco hor htc hdp hbr hrq heq her hct hog
  exact ⟨A2A.inUnit_mean2 hco hor, A2A.inUnit_mean3 htc hdp hbr, hrq,
    A2A.inUnit_mean2 heq her, hct, hog, ⟨le_refl 0, (by norm_num : (0 : ℚ) ≤ 1)⟩⟩

/-- Witness for the C5 amended theorem: applied at the text
`"debido a"` and, for the conditional aggregate part, at the record
`originalityAnalysis`, whose relevant sub-scores all lie in `[0, 1]`. -/
theorem clamped_subscores_in_unit_interval_witness :
    A2A.inUnit (A2A.assessCoherence "debido a")
      ∧ A2A.inUnit (A2A.calculateOverallScores A2A.originalityAnalysis).«structure»
      ∧ A2A.inUnit (A2A.calculateOverallScores A2A.originalityAnalysis).total :=
  ⟨(clamped_subscores_in_unit_interval "debido a").2.1,
   ((clamped_subscores_in_unit_interval "debido a").2.2.2.2.2.2.2.2.2.2.2.2.2.2
      A2A.originalityAnalysis
      (by norm_num [A2A.inUnit, A2A.originalityAnalysis])
      (by norm_num [A2A.inUnit, A2A.originalityAnalysis])
      (by norm_num [A2A.inUnit, A2A.originalityAnalysis])
      (by norm_num [A2A.inUnit, A2A.originalityAnalysis])
      (by norm_num [A2A.inUnit, A2A.originalityAnalysis])
      (by norm_num [A2A.inUnit, A2A.originalityAnalysis])
      (by norm_num [A2A.inUnit, A2A.originalityAnalysis])
      (by norm_num [A2A.inUnit, A2A.originalityAnalysis])
      (by norm_num [A2A.inUnit, A2A.originalityAnalysis])
      (by norm_num [A2A.inUnit, A2A.originalityAnalysis])).1,
   ((clamped_subscores_in_unit_interval "debido a").2.2.2.2.2.2.2.2.2.2.2.2.2.2
      A2A.originalityAnalysis
      (by norm_num [A2A.inUnit, A2A.originalityAnalysis])
      (by norm_num [A2A.inUnit, A2A.originalityAnalysis])
      (by norm_num [A2A.inUnit, A2A.originalityAnalysis])
      (by norm_num [A2A.inUnit, A2A.originalityAnalysis])
      (by norm_num [A2A.inUnit, A2A.originalityAnalysis])
      (by norm_num [A2A.inUnit, A2A.originalityAnalysis])
      (by norm_num [A2A.inUnit, A2A.originalityAnalysis])
      (by norm_num [A2A.inUnit, A2A.originalityAnalysis])
      (by norm_num [A2A.inUnit, A2A.originalityAnalysis])
      (by norm_num [A2A.inUnit, A2A.originalityAnalysis])).2.2.2.2.2.2⟩

/-- C4 counterexample: disjointness fails on the Analysis data model.
For the record `originalityAnalysis` — whose source-dependency score
`0.8` exceeds the weakness threshold `0.7` while its originality score
`0.8` exceeds the strength threshold `0.6` — the Originalidad category
appears in BOTH the Weakness list returned by `identifyWeaknesses` and
the Strength list returned by `identifyStrengths`: the two rules test
different fields of the same analysis and are not mutually exclusive. -/
theorem originality_weakness_strength_coexist :
    "Originalidad"
        ∈ (A2A.identifyWeaknesses A2A.originalityAnalysis).map A2A.Weakness.area
      ∧ "Originalidad"
        ∈ (A2A.identifyStrengths A2A.originalityAnalysis).map A2A.Strength.area := by
  constructor
  · norm_num [A2A.identifyWeaknesses, A2A.originalityAnalysis]
  · norm_num [A2A.identifyStrengths, A2A.originalityAnalysis]

/-- Membership in the image of a conditional singleton block, the shape of
every threshold rule in the classifier. -/
theorem mem_map_if_singleton {α β : Type} {c : Prop} [Decidable c] {x : α}
    {f : α → β} {b : β} (h : b ∈ (if c then [x] else []).map f) : c ∧ b = f x := by
  split at h
  · exact ⟨by assumption, by simpa using h⟩
  · simp at h

/-- Every area label in the weakness list comes from one of the five
threshold rules of `identifyWeaknesses`, with the rule's condition
holding. -/
theorem mem_weakness_areas {a : A2A.Analysis} {area : String}
    (h : area ∈ (A2A.identifyWeaknesses a).map A2A.Weakness.area) :
    (area = "Tesis" ∧ a.content.thesisClarity < 6/10)
      ∨ (area = "Evidencia" ∧ a.evidence.evidenceCount < 2)
      ∨ (area = "Originalidad" ∧ 7/10 < a.originality.sourceDependency)
      ∨ (area = "Razonamiento" ∧ a.reasoning.reasoningQuality < 6/10)
      ∨ (area = "Pensamiento Crítico" ∧ a.criticalThinking.overallLevel < 5/10) := by
  unfold A2A.identifyWeaknesses at h
  simp only [List.map_append, List.mem_append, or_assoc] at h
  rcases h with h | h | h | h | h
  · obtain ⟨hc, rfl⟩ := mem_map_if_singleton h
    exact Or.inl ⟨rfl, hc⟩
  · obtain ⟨hc, rfl⟩ := mem_map_if_singleton h
    exact Or.inr (Or.inl ⟨rfl, hc⟩)
  · obtain ⟨hc, rfl⟩ := mem_map_if_singleton h
    exact Or.inr (Or.inr (Or.inl ⟨rfl, hc⟩))
  · obtain ⟨hc, rfl⟩ := mem_map_if_singleton h
    exact Or.inr (Or.inr (Or.inr (Or.inl ⟨rfl, hc⟩)))
  · obtain ⟨hc, rfl⟩ := mem_map_if_singleton h
    exact Or.inr (Or.inr (Or.inr (Or.inr ⟨rfl, hc⟩)))

/-- Every area label in the strength list comes from one of the four
threshold rules of `identifyStrengths`, with the rule's condition
holding. -/
theorem mem_strength_areas {a : A2A.Analysis} {area : String}
    (h : area ∈ (A2A.identifyStrengths a).map A2A.Strength.area) :
    (area = "Tesis" ∧ 8/10 < a.content.thesisClarity)
      ∨ (area = "Evidencia" ∧ 3 ≤ a.evidence.evidenceCount)
      ∨ (area = "Originalidad" ∧ 6/10 < a.originality.originalityScore)
      ∨ (area = "Razonamiento" ∧ 8/10 < a.reasoning.reasoningQuality) := by
  unfold A2A.identifyStrengths at h
  simp only [List.map_append, List.mem_append, or_assoc] at h
  rcases h with h | h | h | h
  · obtain ⟨hc, rfl⟩ := mem_map_if_singleton h
    exact Or.inl ⟨rfl, hc⟩
  · obtain ⟨hc, rfl⟩ := mem_map_if_singleton h
    exact Or.inr (Or.inl ⟨rfl, hc⟩)
  · obtain ⟨hc, rfl⟩ := mem_map_if_singleton h
    exact Or.inr (Or.inr (Or.inl ⟨rfl, hc⟩))
  · obtain ⟨hc, rfl⟩ := mem_map_if_singleton h
    exact Or.inr (Or.inr (Or.inr ⟨rfl, hc⟩))

/-- C4 amended: for the Tesis, Evidencia, Razonamiento and Pensamiento
Crítico categories the weakness and strength thresholds are disjoint or
one-sided, so a category appearing in both the weakness and the strength
list of one analysis can only be Originalidad (whose weakness rule tests
`sourceDependency > 0.7` and whose strength rule tests the separate field
`originalityScore > 0.6`, which can hold together). -/
theorem weakness_strength_disjoint_except_originality (a : A2A.Analysis) (area : String)
    (hw : area ∈ (A2A.identifyWeaknesses a).map A2A.Weakness.area)
    (hs : area ∈ (A2A.identifyStrengths a).map A2A.Strength.area) :
    area = "Originalidad" := by
  rcases mem_weakness_areas hw with ⟨rfl, h1⟩ | ⟨rfl, h1⟩ | ⟨rfl, h1⟩ | ⟨rfl, h1⟩ | ⟨rfl, h1⟩ <;>
    rcases mem_strength_areas hs with ⟨h2, h3⟩ | ⟨h2, h3⟩ | ⟨h2, h3⟩ | ⟨h2, h3⟩ <;>
    first
      | rfl
      | exact absurd h2 (by decide)
      | linarith

/-- Witness for the C4 amended theorem at the concrete record
`originalityAnalysis`, whose weakness and strength lists both carry the
Originalidad area. -/
theorem weakness_strength_disjoint_except_originality_witness :
    ("Originalidad"
          ∈ (A2A.identifyWeaknesses A2A.originalityAnalysis).map A2A.Weakness.area
        ∧ "Originalidad"
          ∈ (A2A.identifyStrengths A2A.originalityAnalysis).map A2A.Strength.area)
      ∧ "Originalidad" = "Originalidad" :=
  ⟨⟨by norm_num [A2A.identifyWeaknesses, A2A.originalityAnalysis],
    by norm_num [A2A.identifyStrengths, A2A.originalityAnalysis]⟩,
   weakness_strength_disjoint_except_originality A2A.originalityAnalysis "Originalidad"
     (by norm_num [A2A.identifyWeaknesses, A2A.originalityAnalysis])
     (by norm_num [A2A.identifyStrengths, A2A.originalityAnalysis])⟩

theorem styleScore_visual (sv sa sr sk : Nat) : MCP.styleScore sv sa sr sk "visual" = sv := rfl

theorem styleScore_auditory (sv sa sr sk : Nat) : MCP.styleScore sv sa sr sk "auditory" = sa := rfl

theorem styleScore_reading (sv sa sr sk : Nat) : MCP.styleScore sv sa sr sk "reading" = sr := rfl

theorem styleScore_kinesthetic (sv sa sr sk : Nat) :
    MCP.styleScore sv sa sr sk "kinesthetic" = sk := rfl

/-- The dominant style always carries the maximum of the four counts. -/
theorem dominant_score_max (sv sa sr sk : Nat) :
    MCP.styleScore sv sa sr sk (MCP.dominantOf sv sa sr sk)
      = max (max (max sv sa) sr) sk := by
  unfold MCP.dominantOf
  simp only [List.foldl, apply_ite (MCP.styleScore sv sa sr sk), styleScore_visual,
    styleScore_auditory, styleScore_reading, styleScore_kinesthetic]
  split_ifs <;> omega

/-- When visual and auditory tie while reading and kinesthetic are lower,
the reduce keeps the challenger on the tie and therefore selects
auditory, the later of the two tied keys. -/
theorem dominantOf_visual_auditory_tie (sv sa sr sk : Nat)
    (hva : sv = sa) (hr : sr < sa) (hk : sk < sa) :
    MCP.dominantOf sv sa sr sk = "auditory" := by
  unfold MCP.dominantOf
  simp only [List.foldl, styleScore_visual, styleScore_auditory]
  rw [if_neg (by omega : ¬ sa < sv)]
  simp only [styleScore_auditory, styleScore_reading]
  rw [if_pos hr]
  simp only [styleScore_auditory, styleScore_kinesthetic]
  rw [if_pos hk]

/-- C7 counterexample: the message
`"imagen imagen imagen audio audio audio"` has visual count 3 and
auditory count 3 (reading and kinesthetic 0), and `detectLearningStyle`
resolves this tie to `"auditory"` — NOT to `"visual"`, the
first-encountered modality of the iteration order. -/
theorem tie_resolves_to_auditory_not_visual :
    MCP.countIndicators (jsLower "imagen imagen imagen audio audio audio")
        MCP.visualIndicators = 3
      ∧ MCP.countIndicators (jsLower "imagen imagen imagen audio audio audio")
          MCP.auditoryIndicators = 3
      ∧ MCP.detectLearningStyle "imagen imagen imagen audio audio audio"
          = some "auditory"
      ∧ ("auditory" : String) ≠ "visual" := by
  refine ⟨by decide, by decide, ?_, by decide⟩
  have hv : MCP.countIndicators (jsLower "imagen imagen imagen audio audio audio")
      MCP.visualIndicators = 3 := by decide
  have ha : MCP.countIndicators (jsLower "imagen imagen imagen audio audio audio")
      MCP.auditoryIndicators = 3 := by decide
  have hr : MCP.countIndicators (jsLower "imagen imagen imagen audio audio audio")
      MCP.readingIndicators = 0 := by decide
  have hk : MCP.countIndicators (jsLower "imagen imagen imagen audio audio audio")
      MCP.kinestheticIndicators = 0 := by decide
  simp only [MCP.detectLearningStyle, hv, ha, hr, hk]
  rw [if_pos (by omega)]
  rw [dominantOf_visual_auditory_tie 3 3 0 0 rfl (by omega) (by omega)]

/-- The dominant-style reduce returns `"visual"` exactly when visual
strictly beats every later modality: any tie is lost to a later key. -/
theorem dominantOf_eq_visual_iff (sv sa sr sk : Nat) :
    MCP.dominantOf sv sa sr sk = "visual" ↔ sa < sv ∧ sr < sv ∧ sk < sv := by
  unfold MCP.dominantOf
  simp only [List.foldl, apply_ite (MCP.styleScore sv sa sr sk), styleScore_visual,
    styleScore_auditory, styleScore_reading, styleScore_kinesthetic]
  split_ifs <;> simp_all

/-- The reduce returns `"auditory"` exactly when auditory is at least
visual (winning any tie with the earlier key) and strictly above the
later reading and kinesthetic counts. -/
theorem dominantOf_eq_auditory_iff (sv sa sr sk : Nat) :
    MCP.dominantOf sv sa sr sk = "auditory" ↔ sv ≤ sa ∧ sr < sa ∧ sk < sa := by
  unfold MCP.dominantOf
  simp only [List.foldl, apply_ite (MCP.styleScore sv sa sr sk), styleScore_visual,
    styleScore_auditory, styleScore_reading, styleScore_kinesthetic]
  split_ifs <;> simp_all

/-- The reduce returns `"reading"` exactly when reading is at least both
earlier counts (winning any ties) and strictly above kinesthetic. -/
theorem dominantOf_eq_reading_iff (sv sa sr sk : Nat) :
    MCP.dominantOf sv sa sr sk = "reading" ↔ sv ≤ sr ∧ sa ≤ sr ∧ sk < sr := by
  unfold MCP.dominantOf
  simp only [List.foldl, apply_ite (MCP.styleScore sv sa sr sk), styleScore_visual,
    styleScore_auditory, styleScore_reading, styleScore_kinesthetic]
  split_ifs <;> simp_all <;> omega

/-- The reduce returns `"kinesthetic"` exactly when kinesthetic is at
least every earlier count: it wins every tie, being the last key. -/
theorem dominantOf_eq_kinesthetic_iff (sv sa sr sk : Nat) :
    MCP.dominantOf sv sa sr sk = "kinesthetic" ↔ sv ≤ sk ∧ sa ≤ sk ∧ sr ≤ sk := by
  unfold MCP.dominantOf
  simp only [List.foldl, apply_ite (MCP.styleScore sv sa sr sk), styleScore_visual,
    styleScore_auditory, styleScore_reading, styleScore_kinesthetic]
  split_ifs <;> simp_all <;> omega

/-- C7 amended: ties are resolved deterministically, but to the
LAST-encountered tied modality of the fixed iteration order (visual,
auditory, reading, kinesthetic): whenever the maximum count is at least
2, `detectLearningStyle` returns the dominant style selected by the
reduce, and that selection returns a modality exactly when the modality's
count is at least the counts of all earlier modalities (winning every
tie) and strictly greater than the counts of all later ones — so among
tied maxima the last in the order always wins, for every tie
configuration. -/
theorem tie_break_last_encountered (msg : String) :
    (2 ≤ max (max (max (MCP.countIndicators (jsLower msg) MCP.visualIndicators)
            (MCP.countIndicators (jsLower msg) MCP.auditoryIndicators))
          (MCP.countIndicators (jsLower msg) MCP.readingIndicators))
        (MCP.countIndicators (jsLower msg) MCP.kinestheticIndicators)
      → MCP.detectLearningStyle msg
          = some (MCP.dominantOf
              (MCP.countIndicators (jsLower msg) MCP.visualIndicators)
              (MCP.countIndicators (jsLower msg) MCP.auditoryIndicators)
              (MCP.countIndicators (jsLower msg) MCP.readingIndicators)
              (MCP.countIndicators (jsLower msg) MCP.kinestheticIndicators)))
      ∧ (∀ sv sa sr sk : Nat,
          (MCP.dominantOf sv sa sr sk = "visual" ↔ sa < sv ∧ sr < sv ∧ sk < sv)
            ∧ (MCP.dominantOf sv sa sr sk = "auditory" ↔ sv ≤ sa ∧ sr < sa ∧ sk < sa)
            ∧ (MCP.dominantOf sv sa sr sk = "reading" ↔ sv ≤ sr ∧ sa ≤ sr ∧ sk < sr)
            ∧ (MCP.dominantOf sv sa sr sk = "kinesthetic"
                ↔ sv ≤ sk ∧ sa ≤ sk ∧ sr ≤ sk)) := by
  constructor
  · intro h
    simp only [MCP.detectLearningStyle]
    rw [if_pos h]
  · intro sv sa sr sk
    exact ⟨dominantOf_eq_visual_iff sv sa sr sk, dominantOf_eq_auditory_iff sv sa sr sk,
      dominantOf_eq_reading_iff sv sa sr sk, dominantOf_eq_kinesthetic_iff sv sa sr sk⟩

/-- Witness for the C7 amended theorem: at the concrete message with
visual count 3 and auditory count 3, the floor hypothesis holds and the
theorem yields the auditory resolution of the tie. -/
theorem tie_break_last_encountered_witness :
    (2 ≤ max (max (max (MCP.countIndicators
              (jsLower "imagen imagen imagen audio audio audio") MCP.visualIndicators)
            (MCP.countIndicators
              (jsLower "imagen imagen imagen audio audio audio") MCP.auditoryIndicators))
          (MCP.countIndicators
            (jsLower "imagen imagen imagen audio audio audio") MCP.readingIndicators))
        (MCP.countIndicators
          (jsLower "imagen imagen imagen audio audio audio") MCP.kinestheticIndicators))
      ∧ MCP.detectLearningStyle "imagen imagen imagen audio audio audio"
          = some "auditory" := by
  refine ⟨by decide, ?_⟩
  have h1 := (tie_break_last_encountered "imagen imagen imagen audio audio audio").1
    (by decide)
  have h2 := ((tie_break_last_encountered "imagen imagen imagen audio audio audio").2
    (MCP.countIndicators
      (jsLower "imagen imagen imagen audio audio audio") MCP.visualIndicators)
    (MCP.countIndicators
      (jsLower "imagen imagen imagen audio audio audio") MCP.auditoryIndicators)
    (MCP.countIndicators
      (jsLower "imagen imagen imagen audio audio audio") MCP.readingIndicators)
    (MCP.countIndicators
      (jsLower "imagen imagen imagen audio audio audio") MCP.kinestheticIndicators)).2.1.mpr
    (by decide)
  rw [h1, h2]

/-- C8: `detectLearningStyle` returns no modality whenever the maximum
per-modality keyword count is below 2 — even when the maximum is uniquely
attained — and whenever the maximum is at least 2 it returns a modality
carrying exactly that maximum count. -/
theorem learning_style_floor_and_dominant (msg : String) :
    (max (max (max (MCP.countIndicators (jsLower msg) MCP.visualIndicators)
            (MCP.countIndicators (jsLower msg) MCP.auditoryIndicators))
          (MCP.countIndicators (jsLower msg) MCP.readingIndicators))
        (MCP.countIndicators (jsLower msg) MCP.kinestheticIndicators) < 2
      → MCP.detectLearningStyle msg = none)
    ∧ (2 ≤ max (max (max (MCP.countIndicators (jsLower msg) MCP.visualIndicators)
            (MCP.countIndicators (jsLower msg) MCP.auditoryIndicators))
          (MCP.countIndicators (jsLower msg) MCP.readingIndicators))
        (MCP.countIndicators (jsLower msg) MCP.kinestheticIndicators)
      → ∃ style, MCP.detectLearningStyle msg = some style
          ∧ MCP.styleScore (MCP.countIndicators (jsLower msg) MCP.visualIndicators)
              (MCP.countIndicators (jsLower msg) MCP.auditoryIndicators)
              (MCP.countIndicators (jsLower msg) MCP.readingIndicators)
              (MCP.countIndicators (jsLower msg) MCP.kinestheticIndicators) style
            = max (max (max (MCP.countIndicators (jsLower msg) MCP.visualIndicators)
                  (MCP.countIndicators (jsLower msg) MCP.auditoryIndicators))
                (MCP.countIndicators (jsLower msg) MCP.readingIndicators))
              (MCP.countIndicators (jsLower msg) MCP.kinestheticIndicators)) := by
  constructor
  · intro h
    simp only [MCP.detectLearningStyle]
    rw [if_neg (by omega)]
  · intro h
    simp only [MCP.detectLearningStyle]
    rw [if_pos h]
    exact ⟨_, rfl, dominant_score_max _ _ _ _⟩

/-- Witness for C8: `"imagen"` has a unique maximum count of 1 and is
undetermined; `"imagen imagen"` reaches the floor of 2 and yields a
modality with the maximum count. -/
theorem learning_style_floor_and_dominant_witness :
    (max (max (max (MCP.countIndicators (jsLower "imagen") MCP.visualIndicators)
            (MCP.countIndicators (jsLower "imagen") MCP.auditoryIndicators))
          (MCP.countIndicators (jsLower "imagen") MCP.readingIndicators))
        (MCP.countIndicators (jsLower "imagen") MCP.kinestheticIndicators) < 2
      ∧ MCP.detectLearningStyle "imagen" = none)
      ∧ (2 ≤ max (max (max (MCP.countIndicators (jsLower "imagen imagen") MCP.visualIndicators)
            (MCP.countIndicators (jsLower "imagen imagen") MCP.auditoryIndicators))
          (MCP.countIndicators (jsLower "imagen imagen") MCP.readingIndicators))
        (MCP.countIndicators (jsLower "imagen imagen") MCP.kinestheticIndicators)
      ∧ ∃ style, MCP.detectLearningStyle "imagen imagen" = some style
          ∧ MCP.styleScore (MCP.countIndicators (jsLower "imagen imagen") MCP.visualIndicators)
              (MCP.countIndicators (jsLower "imagen imagen") MCP.auditoryIndicators)
              (MCP.countIndicators (jsLower "imagen imagen") MCP.readingIndicators)
              (MCP.countIndicators (jsLower "imagen imagen") MCP.kinestheticIndicators) style
            = max (max (max (MCP.countIndicators (jsLower "imagen imagen") MCP.visualIndicators)
                  (MCP.countIndicators (jsLower "imagen imagen") MCP.auditoryIndicators))
                (MCP.countIndicators (jsLower "imagen imagen") MCP.readingIndicators))
              (MCP.countIndicators (jsLower "imagen imagen") MCP.kinestheticIndicators)) :=
  ⟨⟨by decide, (learning_style_floor_and_dominant "imagen").1 (by decide)⟩,
   ⟨by decide, (learning_style_floor_and_dominant "imagen imagen").2 (by decide)⟩⟩

/-- C9: `processMessage` never propagates an exception.  For an unknown
target agent it returns `{success: false, messageId, error}` with the
message marked failed and no role handler invoked; when the dispatched
action throws (any `Except.error` from `executeAgentAction`, in
particular an exception inside a role handler) the error is caught and
returned as `{success: false, messageId, error}` with the message marked
failed; and a successful handler yields `{success: true, messageId,
response}` with the message marked completed. -/
theorem processMessage_never_propagates (Resp : Type) (agents : List String)
    (contexts : String → Option String)
    (hStudent hTeacher hA2A hAnalysis : MCP.Payload → Except String Resp)
    (msg : MCP.MsgObj) :
    (msg.«to» ∉ agents →
      MCP.processMessage agents contexts hStudent hTeacher hA2A hAnalysis msg
        = { result := { success := false, messageId := msg.id, response := none,
                        error := some ("Agent " ++ msg.«to» ++ " not found") }
            status := MCP.MsgStatus.failed
            invoked := [] })
      ∧ (∀ (e : String) (log : List String), msg.«to» ∈ agents →
          MCP.executeAgentAction agents hStudent hTeacher hA2A hAnalysis msg.«to»
              (MCP.mkPayload contexts msg) = (Except.error e, log) →
          MCP.processMessage agents contexts hStudent hTeacher hA2A hAnalysis msg
            = { result := { success := false, messageId := msg.id, response := none,
                            error := some e }
                status := MCP.MsgStatus.failed
                invoked := log })
      ∧ (∀ (r : Resp) (log : List String), msg.«to» ∈ agents →
          MCP.executeAgentAction agents hStudent hTeacher hA2A hAnalysis msg.«to»
              (MCP.mkPayload contexts msg) = (Except.ok r, log) →
          MCP.processMessage agents contexts hStudent hTeacher hA2A hAnalysis msg
            = { result := { success := true, messageId := msg.id, response := some r,
                            error := none }
                status := MCP.MsgStatus.completed
                invoked := log }) := by
  refine ⟨?_, ?_, ?_⟩
  · intro h
    simp only [MCP.processMessage]
    rw [if_neg h]
  · intro e log hmem hexec
    simp only [MCP.processMessage]
    rw [if_pos hmem, hexec]
  · intro r log hmem hexec
    simp only [MCP.processMessage]
    rw [if_pos hmem, hexec]

/-- Witness for C9: a message to the unregistered agent `"ghost"` fails
with no handler invoked, and a message to `"student-agent"` whose handler
throws `"boom"` fails with the error captured in the result. -/
theorem processMessage_never_propagates_witness :
    (MCP.processMessage ["student-agent"] (fun _ => none)
        (fun _ => (Except.error "boom" : Except String String))
        (fun _ => Except.ok "ok") (fun _ => Except.ok "ok") (fun _ => Except.ok "ok")
        { id := "m1", «from» := "a", «to» := "ghost", sessionId := "s",
          content := "hola", timestamp := 0 }
      = { result := { success := false, messageId := "m1", response := none,
                      error := some "Agent ghost not found" }
          status := MCP.MsgStatus.failed
          invoked := [] })
      ∧ (MCP.processMessage ["student-agent"] (fun _ => none)
          (fun _ => (Except.error "boom" : Except String String))
          (fun _ => Except.ok "ok") (fun _ => Except.ok "ok") (fun _ => Except.ok "ok")
          { id := "m2", «from» := "a", «to» := "student-agent", sessionId := "s",
            content := "hola", timestamp := 0 }
        = { result := { success := false, messageId := "m2", response := none,
                        error := some "boom" }
            status := MCP.MsgStatus.failed
            invoked := ["student-agent"] }) :=
  ⟨(processMessage_never_propagates String ["student-agent"] (fun _ => none)
      (fun _ => (Except.error "boom" : Except String String))
      (fun _ => Except.ok "ok") (fun _ => Except.ok "ok") (fun _ => Except.ok "ok")
      { id := "m1", «from» := "a", «to» := "ghost", sessionId := "s",
        content := "hola", timestamp := 0 }).1 (by decide),
   (processMessage_never_propagates String ["student-agent"] (fun _ => none)
      (fun _ => (Except.error "boom" : Except String String))
      (fun _ => Except.ok "ok") (fun _ => Except.ok "ok") (fun _ => Except.ok "ok")
      { id := "m2", «from» := "a", «to» := "student-agent", sessionId := "s",
        content := "hola", timestamp := 0 }).2.1 "boom" ["student-agent"]
     (by decide) rfl⟩

/-- C10: a text with at least as many occurrences of every indicator
phrase of a scored category (all else unchanged — for the composite
reasoning score, no more fallacy-marker occurrences) never scores lower
in that category, up to the clamp at 1.  This holds for every
terminating category scorer: coherence, organization, thesis clarity,
depth, breadth, argument flow, reasoning quality, evidence quality, the
counting source dependency, and the critical-thinking level.  The
originality score is covered vacuously: `calculateOriginalityScore`
dispatches to the self-recursive final `assessSourceDependency` and never
returns any value, so no occurrence change can ever lower it. -/
theorem indicator_monotonicity :
    (∀ t1 t2 : String,
        (∀ ind ∈ A2A.coherenceIndicators,
            countOccs ind (jsLower t1) ≤ countOccs ind (jsLower t2)) →
        A2A.assessCoherence t1 ≤ A2A.assessCoherence t2)
      ∧ (∀ t1 t2 : String,
        (∀ ind ∈ A2A.organizationIndicators,
            countOccs ind (jsLower t1) ≤ countOccs ind (jsLower t2)) →
        A2A.assessOrganization t1 ≤ A2A.assessOrganization t2)
      ∧ (∀ t1 t2 : String,
        (∀ ind ∈ A2A.thesisIndicators,
            countOccs ind (jsLower t1) ≤ countOccs ind (jsLower t2)) →
        A2A.assessThesisClarity t1 ≤ A2A.assessThesisClarity t2)
      ∧ (∀ t1 t2 : String,
        (∀ ind ∈ A2A.depthIndicators,
            countOccs ind (jsLower t1) ≤ countOccs ind (jsLower t2)) →
        A2A.assessDepth t1 ≤ A2A.assessDepth t2)
      ∧ (∀ t1 t2 : String,
        (∀ ind ∈ A2A.breadthIndicators,
            countOccs ind (jsLower t1) ≤ countOccs ind (jsLower t2)) →
        A2A.assessBreadth t1 ≤ A2A.assessBreadth t2)
      ∧ (∀ t1 t2 : String,
        (∀ ind ∈ A2A.connectionIndicators,
            countOccs ind (jsLower t1) ≤ countOccs ind (jsLower t2)) →
        A2A.assessArgumentFlow t1 ≤ A2A.assessArgumentFlow t2)
      ∧ (∀ t1 t2 : String,
        (∀ ind ∈ A2A.connectionIndicators,
            countOccs ind (jsLower t1) ≤ countOccs ind (jsLower t2)) →
        (∀ ind ∈ A2A.fallacyIndicators,
            countOccs ind (jsLower t2) ≤ countOccs ind (jsLower t1)) →
        A2A.assessReasoningQuality t1 ≤ A2A.assessReasoningQuality t2)
      ∧ (∀ t1 t2 : String,
        (∀ p ∈ A2A.evidenceTypesTable, ∀ ind ∈ p.2,
            countOccs ind (jsLower t1) ≤ countOccs ind (jsLower t2)) →
        A2A.assessEvidenceQuality t1 ≤ A2A.assessEvidenceQuality t2)
      ∧ (∀ t1 t2 : String,
        (∀ ind ∈ A2A.sourceIndicators,
            countOccs ind (jsLower t1) ≤ countOccs ind (jsLower t2)) →
        A2A.assessSourceDependencyFirst t1 ≤ A2A.assessSourceDependencyFirst t2)
      ∧ (∀ t1 t2 : String,
        (∀ ind ∈ A2A.questioningIndicators,
            countOccs ind (jsLower t1) ≤ countOccs ind (jsLower t2)) →
        (∀ ind ∈ A2A.analysisIndicators,
            countOccs ind (jsLower t1) ≤ countOccs ind (jsLower t2)) →
        (∀ ind ∈ A2A.evaluationIndicators,
            countOccs ind (jsLower t1) ≤ countOccs ind (jsLower t2)) →
        (∀ ind ∈ A2A.synthesisIndicators,
            countOccs ind (jsLower t1) ≤ countOccs ind (jsLower t2)) →
        (∀ ind ∈ A2A.metacognitionIndicators,
            countOccs ind (jsLower t1) ≤ countOccs ind (jsLower t2)) →
        A2A.calculateCriticalThinkingLevel t1 ≤ A2A.calculateCriticalThinkingLevel t2)
      ∧ (∀ (fuel : ℕ) (t : String), A2A.calculateOriginalityScore fuel t = none) := by
  refine ⟨?_, ?_, ?_, ?_, ?_, ?_, ?_, ?_, ?_, ?_, ?_⟩
  · intro t1 t2 h
    unfold A2A.assessCoherence
    exact A2A.min_div_mono (by norm_num) (A2A.countHits_mono h)
  · intro t1 t2 h
    unfold A2A.assessOrganization
    exact A2A.min_div_mono (by norm_num) (A2A.countHits_mono h)
  · intro t1 t2 h
    unfold A2A.assessThesisClarity
    by_cases h1 : A2A.detectThesis t1 = true
    · have h2 := A2A.detectThesis_mono h h1
      simp [h1, h2]
    · simp only [Bool.not_eq_true] at h1
      simp only [h1, Bool.false_eq_true, if_false]
      split <;> norm_num
  · intro t1 t2 h
    unfold A2A.assessDepth
    exact A2A.min_div_mono (by norm_num) (A2A.countHits_mono h)
  · intro t1 t2 h
    unfold A2A.assessBreadth
    exact A2A.min_div_mono (by norm_num) (A2A.countHits_mono h)
  · intro t1 t2 h
    unfold A2A.assessArgumentFlow A2A.detectLogicalConnections
    exact A2A.min_div_mono (by norm_num) (A2A.countHits_mono h)
  · intro t1 t2 hc hf
    have hc2 : (countIndicatorHits A2A.connectionIndicators t1 : ℚ)
        ≤ countIndicatorHits A2A.connectionIndicators t2 := by
      exact_mod_cast A2A.countHits_mono hc
    have hf2 : (countIndicatorHits A2A.fallacyIndicators t2 : ℚ)
        ≤ countIndicatorHits A2A.fallacyIndicators t1 := by
      exact_mod_cast A2A.countHits_mono hf
    unfold A2A.assessReasoningQuality A2A.detectLogicalConnections A2A.detectFallacies
    exact max_le_max le_rfl (min_le_min le_rfl (by linarith))
  · intro t1 t2 h
    unfold A2A.assessEvidenceQuality
    apply A2A.min_div_mono (by norm_num)
    rw [A2A.evidenceCount_eq, A2A.evidenceCount_eq]
    exact List.sum_le_sum (fun p hp => A2A.countHits_mono (h p hp))
  · intro t1 t2 h
    unfold A2A.assessSourceDependencyFirst
    exact A2A.min_div_mono (by norm_num) (A2A.countHits_mono h)
  · intro t1 t2 hq ha he hs hm
    unfold A2A.calculateCriticalThinkingLevel A2A.detectQuestioning A2A.detectAnalysis
      A2A.detectEvaluation A2A.detectSynthesis A2A.detectMetacognition
    exact A2A.min_div_mono (by norm_num)
      (add_le_add (add_le_add (add_le_add (add_le_add (A2A.countHits_mono hq)
        (A2A.countHits_mono ha)) (A2A.countHits_mono he)) (A2A.countHits_mono hs))
        (A2A.countHits_mono hm))
  · exact A2A.calculateOriginalityScore_none

/-- Witness for C10: adding a second `"además"` (a coherence and breadth
indicator) does not lower any terminating category score, and a second
`"debido a"` does not lower the argument-flow or reasoning-quality score;
each hypothesis is discharged by evaluating the occurrence counts on the
concrete pair of texts. -/
theorem indicator_monotonicity_witness :
    A2A.assessCoherence "además" ≤ A2A.assessCoherence "además además"
      ∧ A2A.assessOrganization "además" ≤ A2A.assessOrganization "además además"
      ∧ A2A.assessThesisClarity "además" ≤ A2A.assessThesisClarity "además además"
      ∧ A2A.assessDepth "además" ≤ A2A.assessDepth "además además"
      ∧ A2A.assessBreadth "además" ≤ A2A.assessBreadth "además además"
      ∧ A2A.assessArgumentFlow "debido a" ≤ A2A.assessArgumentFlow "debido a debido a"
      ∧ A2A.assessReasoningQuality "debido a"
          ≤ A2A.assessReasoningQuality "debido a debido a"
      ∧ A2A.assessEvidenceQuality "además" ≤ A2A.assessEvidenceQuality "además además"
      ∧ A2A.assessSourceDependencyFirst "además"
          ≤ A2A.assessSourceDependencyFirst "además además"
      ∧ A2A.calculateCriticalThinkingLevel "además"
          ≤ A2A.calculateCriticalThinkingLevel "además además"
      ∧ A2A.calculateOriginalityScore 1000 "además" = none :=
  ⟨indicator_monotonicity.1 "además" "además además" (by decide),
   indicator_monotonicity.2.1 "además" "además además" (by decide),
   indicator_monotonicity.2.2.1 "además" "además además" (by decide),
   indicator_monotonicity.2.2.2.1 "además" "además además" (by decide),
   indicator_monotonicity.2.2.2.2.1 "además" "además además" (by decide),
   indicator_monotonicity.2.2.2.2.2.1 "debido a" "debido a debido a" (by decide),
   indicator_monotonicity.2.2.2.2.2.2.1 "debido a" "debido a debido a"
     (by decide) (by decide),
   indicator_monotonicity.2.2.2.2.2.2.2.1 "además" "además además" (by decide),
   indicator_monotonicity.2.2.2.2.2.2.2.2.1 "además" "además además" (by decide),
   indicator_monotonicity.2.2.2.2.2.2.2.2.2.1 "además" "además además"
     (by decide) (by decide) (by decide) (by decide) (by decide),
   indicator_monotonicity.2.2.2.2.2.2.2.2.2.2 1000 "además"⟩

end Claims
